import Mathlib

/-!
Shallow embedding of the `colback` crates: the `ColbackView` derive macro
(`colback-derive/src/lib.rs`, `colback-derive/src/type_helpers.rs`) and the
runtime behavior of the code it generates, together with the error surface of
`colback-core/src/lib.rs`.

The derive macro runs in two phases, both modelled here:
  * definition time: parse the per-field `#[polars(...)]` options, look the
    field's primitive type up in the type catalog (`map_type`), and validate
    the null-handling policy (`derive_colback_view`, lines 108-191).  Any
    failure is an `abort!`, i.e. a definition-time error.  This phase is
    `compileField` / `compileSchema` below, producing one `CompiledField`
    per struct field.
  * run time: the generated `view` constructor (column lookup, dtype check,
    typed accessor) and the generated `get`/`iter` methods on the view.
    These are `view`, `View.get` and `View.iter` below.

The polars dataframe is the external table collaborator; it is modelled at
the interface the spec gives it (column-by-name lookup, a storage dtype per
column, and a per-cell getter returning an optional value where `none`
encodes a null cell).  In the polars versions this code compiles against
(0.36 and later, which introduced `DataType::String` / `StringChunked` /
`.str()`), `ChunkedArray::get` is a safe wrapper over `get_unchecked` with
an unconditional bounds assert, so an out-of-range index panics; `cellGet`
models exactly that, and `cellAt` describes the in-range possibly-null
cell content.
-/

namespace Colback

/-- Polars storage dtypes that appear in the type catalog
(`map_type` in `type_helpers.rs`).  `Str` models `DataType::String`. -/
inductive DataType
  | UInt8 | UInt16 | UInt32 | UInt64 | Int32 | Int64
  | Float32 | Float64 | Boolean | Str
  deriving DecidableEq, Repr

/-- Cell values stored in a column.  The claims under study never depend on
arithmetic over the payloads, only on presence/absence and equality, so
integers model the numeric payloads (floats included) and booleans and
strings model the rest. -/
inductive Value
  | int (i : Int)
  | bool (b : Bool)
  | str (s : String)
  deriving DecidableEq, Repr

/-- One dataframe column: its storage dtype and its cells; `none` is a null
cell (spec section 6: `column.typed_get(idx) -> Option<T>`). -/
structure Column where
  dtype : DataType
  cells : List (Option Value)
  deriving DecidableEq, Repr

/-- The table collaborator: a height and named columns, looked up by name. -/
structure DataFrame where
  height : Nat
  columns : List (String × Column)
  deriving DecidableEq, Repr

/-- Models `df.column(name)`, which fails when no column has that name. -/
def DataFrame.column (df : DataFrame) (name : String) : Option Column :=
  (df.columns.find? (fun p => p.1 == name)).map Prod.snd

/-- The shape of a struct field's declared Rust type, as far as the macro
inspects it: a single-segment path (`u32`, `String`, ...), a canonical
`Option<T>` wrapper (detected by `option_inner`), or anything else. -/
inductive RustTy
  | path (name : String)
  | option (inner : RustTy)
  | other
  deriving DecidableEq, Repr

/-- Models `option_inner` in `type_helpers.rs`: detect a top-level
`Option<T>` and return the inner type, else the type itself. -/
def option_inner (ty : RustTy) : Bool × RustTy :=
  match ty with
  | RustTy.option inner => (true, inner)
  | t => (false, t)

/-- Models the `TypeMap` struct of `type_helpers.rs`.  Token streams such as
the chunked-array type are modelled as the strings the macro would splice
into the generated code.  The row value type for `String` fields is a
borrowed string slice; the lifetime is elided here. -/
structure TypeMap where
  expected_dtype : DataType
  accessor : String
  chunked_ty : String
  row_value_ty : String
  deriving DecidableEq, Repr

/-- Models the `map_prim!` table inside `map_type` (`type_helpers.rs`,
lines 68-81), entry for entry — including the `UInt63Chunked` token emitted
for `u64`, exactly as the source spells it. -/
def map_prim (s : String) : Option TypeMap :=
  if s = "u8" then some ⟨DataType.UInt8, "u8", "UInt8Chunked", "u8"⟩
  else if s = "u16" then some ⟨DataType.UInt16, "u16", "UInt16Chunked", "u16"⟩
  else if s = "u32" then some ⟨DataType.UInt32, "u32", "UInt32Chunked", "u32"⟩
  else if s = "u64" then some ⟨DataType.UInt64, "u64", "UInt63Chunked", "u64"⟩
  else if s = "i32" then some ⟨DataType.Int32, "i32", "Int32Chunked", "i32"⟩
  else if s = "i64" then some ⟨DataType.Int64, "i64", "Int64Chunked", "i64"⟩
  else if s = "f32" then some ⟨DataType.Float32, "f32", "Float32Chunked", "f32"⟩
  else if s = "f64" then some ⟨DataType.Float64, "f64", "Float64Chunked", "f64"⟩
  else if s = "bool" then some ⟨DataType.Boolean, "bool", "BooleanChunked", "bool"⟩
  else if s = "String" then some ⟨DataType.Str, "str", "StringChunked", "&str"⟩
  else none

/-- Models `map_type` (`type_helpers.rs`, lines 58-82): only a bare
single-segment path has a catalog entry; any other type shape is rejected. -/
def map_type (ty : RustTy) : Option TypeMap :=
  match ty with
  | RustTy.path s => map_prim s
  | _ => none

/-- Models `ColbackFieldOpts` (`colback-derive/src/lib.rs`, lines 28-54):
the parsed `#[polars(...)]` options of one struct field.  A present
`default` expression is modelled by the value it evaluates to. -/
structure ColbackFieldOpts where
  ident : String
  ty : RustTy
  name : Option String
  null : Option String
  default : Option Value
  deriving DecidableEq, Repr

/-- How the generated `get` materializes one field: straight optional read,
null-substituting default, or error-on-null.  This is the shape of the three
`row_build` branches (`lib.rs`, lines 168-188). -/
inductive RowBuildKind
  | optionalRead
  | withDefault (d : Value)
  | errorOnNull
  deriving DecidableEq, Repr

/-- The per-field output of the macro: everything the generated code needs
(column name, expected dtype, accessor, chunked type token, row-build
branch). -/
structure CompiledField where
  ident : String
  col_name : String
  expected_dtype : DataType
  accessor : String
  chunked_ty : String
  kind : RowBuildKind
  deriving DecidableEq, Repr

/-- Models the per-field body of `derive_colback_view` (`lib.rs`, lines
108-191): option detection, catalog lookup (abort when absent), the
null-policy validation match (lines 131-143, in source order), and the
choice of `row_build` branch (lines 168-188: the `is_option` test comes
first, then `policy == "default"`, then error-on-null as the catch-all).
`Except.error` models `abort!`, a definition-time error.  The
`default_expr.unwrap()` of line 174 is modelled by the unreachable
panic-message error branch. -/
def compileField (f : ColbackFieldOpts) : Except String CompiledField :=
  let is_option := (option_inner f.ty).1
  let inner_ty := (option_inner f.ty).2
  match map_type inner_ty with
  | none => Except.error "unsupported field type for ColbackView; add a mapping for this type"
  | some m =>
    let col_name := f.name.getD f.ident
    let policy := f.null.getD "error"
    if policy = "option" ∧ is_option = false then
      Except.error "null=option requires the field type to be Option<T>"
    else if policy = "error" ∧ is_option = true then
      Except.error "Option<T> fields must use null=option"
    else if policy = "default" ∧ f.default = none then
      Except.error "null=default requires a default to be set"
    else if is_option then
      Except.ok ⟨f.ident, col_name, m.expected_dtype, m.accessor, m.chunked_ty,
        RowBuildKind.optionalRead⟩
    else if policy = "default" then
      match f.default with
      | some d => Except.ok ⟨f.ident, col_name, m.expected_dtype, m.accessor, m.chunked_ty,
          RowBuildKind.withDefault d⟩
      | none => Except.error "unwrap of missing default expression"
    else
      Except.ok ⟨f.ident, col_name, m.expected_dtype, m.accessor, m.chunked_ty,
        RowBuildKind.errorOnNull⟩

/-- The whole derive pass over the struct's fields, in declaration order;
`abort!` stops at the first offending field. -/
def compileSchema : List ColbackFieldOpts → Except String (List CompiledField)
  | [] => Except.ok []
  | f :: fs =>
    match compileField f with
    | Except.error e => Except.error e
    | Except.ok cf =>
      match compileSchema fs with
      | Except.error e => Except.error e
      | Except.ok cfs => Except.ok (cf :: cfs)

/-- Models `ColbackError` from `colback-core/src/lib.rs`. -/
inductive ColbackError
  | UnnamedFields
  | MissingColumn (col : String)
  | WrongDtype (col : String) (expected : DataType) (actual : DataType)
  | InvalidNull (col : String) (idx : Nat)
  deriving DecidableEq, Repr

/-- The dtype for which a polars typed series accessor (`u32()`, `str()`,
...) succeeds: the accessor returns `Err` unless the series has exactly the
matching dtype.  This is the collaborator behavior behind the generated
`.expect("dtype checked above")` call. -/
def accessorDtype (acc : String) : Option DataType :=
  if acc = "u8" then some DataType.UInt8
  else if acc = "u16" then some DataType.UInt16
  else if acc = "u32" then some DataType.UInt32
  else if acc = "u64" then some DataType.UInt64
  else if acc = "i32" then some DataType.Int32
  else if acc = "i64" then some DataType.Int64
  else if acc = "f32" then some DataType.Float32
  else if acc = "f64" then some DataType.Float64
  else if acc = "bool" then some DataType.Boolean
  else if acc = "str" then some DataType.Str
  else none

/-- A validated typed column handle held by the generated view: the field
identifier, the source column name (needed for the `InvalidNull` error),
the column's cells, and the row-build branch. -/
structure FieldHandle where
  ident : String
  col_name : String
  cells : List (Option Value)
  kind : RowBuildKind
  deriving DecidableEq, Repr

/-- The generated `<Struct>View` value: the dataframe plus one validated
handle per field. -/
structure View where
  df : DataFrame
  handles : List FieldHandle
  deriving DecidableEq, Repr

/-- Models the generated `len()`: the dataframe's height. -/
def View.len (v : View) : Nat := v.df.height

/-- Outcome of running generated code that may also panic (the
`.expect("dtype checked above")` call), kept separate from the ordinary
`ColbackError` channel. -/
inductive BuildOutcome (α : Type)
  | ok (v : α)
  | failed (e : ColbackError)
  | panicked (msg : String)
  deriving DecidableEq, Repr

/-- Models one field's `extract_stmts` block (`lib.rs`, lines 154-165):
column lookup (`MissingColumn` on failure), the dtype equality check
(`WrongDtype` with the column's actual dtype on mismatch), then the typed
accessor whose failure would be the `expect` panic. -/
def extractField (df : DataFrame) (cf : CompiledField) : BuildOutcome FieldHandle :=
  match df.column cf.col_name with
  | none => BuildOutcome.failed (ColbackError.MissingColumn cf.col_name)
  | some col =>
    if col.dtype ≠ cf.expected_dtype then
      BuildOutcome.failed (ColbackError.WrongDtype cf.col_name cf.expected_dtype col.dtype)
    else
      match accessorDtype cf.accessor with
      | some dt =>
        if col.dtype = dt then
          BuildOutcome.ok ⟨cf.ident, cf.col_name, col.cells, cf.kind⟩
        else BuildOutcome.panicked "dtype checked above"
      | none => BuildOutcome.panicked "dtype checked above"

/-- The sequence of `extract_stmts` in the generated `view` body, run in
schema order; the `?` operator stops at the first failing field. -/
def viewFields (df : DataFrame) : List CompiledField → BuildOutcome (List FieldHandle)
  | [] => BuildOutcome.ok []
  | cf :: rest =>
    match extractField df cf with
    | BuildOutcome.failed e => BuildOutcome.failed e
    | BuildOutcome.panicked m => BuildOutcome.panicked m
    | BuildOutcome.ok h =>
      match viewFields df rest with
      | BuildOutcome.failed e => BuildOutcome.failed e
      | BuildOutcome.panicked m => BuildOutcome.panicked m
      | BuildOutcome.ok hs => BuildOutcome.ok (h :: hs)

/-- Models the generated `ColbackView::view` (`lib.rs`, lines 227-234): run
every field's extraction and, only if all succeed, assemble the view. -/
def view (cfs : List CompiledField) (df : DataFrame) : BuildOutcome View :=
  match viewFields df cfs with
  | BuildOutcome.ok hs => BuildOutcome.ok ⟨df, hs⟩
  | BuildOutcome.failed e => BuildOutcome.failed e
  | BuildOutcome.panicked m => BuildOutcome.panicked m

/-- The possibly-null content of the cell at an in-range index (`none` is a
null cell).  This is only a description of in-range reads — the runtime
read itself is `cellGet`, which panics out of range. -/
def cellAt (cells : List (Option Value)) (idx : Nat) : Option Value :=
  cells.getD idx none

/-- Models the generated `self.#ident.get(idx)` read: polars'
`ChunkedArray::get` (0.36 and later) asserts the index is in bounds —
panicking otherwise — and then returns the cell value, `None` for a null
cell. -/
def cellGet (cells : List (Option Value)) (idx : Nat) : BuildOutcome (Option Value) :=
  if idx < cells.length then BuildOutcome.ok (cellAt cells idx)
  else BuildOutcome.panicked "index out of bounds"

/-- The materialized value of one field inside a `RowRef`: a plain value
for error/default-policy fields, an optional value for optional fields. -/
inductive FieldValue
  | required (v : Value)
  | optionalVal (v : Option Value)
  deriving DecidableEq, Repr

/-- The generated `<Struct>RowRef`, modelled as its field values in
declaration order, keyed by field identifier. -/
abbrev RowRef := List (String × FieldValue)

/-- Models one field's `row_build` statement (`lib.rs`, lines 168-188):
every branch first evaluates the generated `self.#ident.get(idx)` read
(which panics out of range); then optional fields take the cell as-is,
default fields substitute the default for a null, and error fields fail
the whole `get` with `InvalidNull` carrying the source column name and the
row index. -/
def materializeField (h : FieldHandle) (idx : Nat) : BuildOutcome FieldValue :=
  match cellGet h.cells idx with
  | BuildOutcome.panicked m => BuildOutcome.panicked m
  | BuildOutcome.failed e => BuildOutcome.failed e
  | BuildOutcome.ok cell =>
    match h.kind with
    | RowBuildKind.optionalRead =>
      BuildOutcome.ok (FieldValue.optionalVal cell)
    | RowBuildKind.withDefault d =>
      BuildOutcome.ok (FieldValue.required (cell.getD d))
    | RowBuildKind.errorOnNull =>
      match cell with
      | some v => BuildOutcome.ok (FieldValue.required v)
      | none => BuildOutcome.failed (ColbackError.InvalidNull h.col_name idx)

/-- The sequence of `row_build` statements in the generated `get` body: each
field is materialized in declaration order into a local binding, the first
error aborts via `?` (and a panic aborts everything), and only if all
succeed is the `RowRef` struct literal assembled. -/
def buildRow (handles : List FieldHandle) (idx : Nat) : BuildOutcome RowRef :=
  match handles with
  | [] => BuildOutcome.ok []
  | h :: rest =>
    match materializeField h idx with
    | BuildOutcome.failed e => BuildOutcome.failed e
    | BuildOutcome.panicked m => BuildOutcome.panicked m
    | BuildOutcome.ok fv =>
      match buildRow rest idx with
      | BuildOutcome.failed e => BuildOutcome.failed e
      | BuildOutcome.panicked m => BuildOutcome.panicked m
      | BuildOutcome.ok r => BuildOutcome.ok ((h.ident, fv) :: r)

/-- Models the generated `get` (`lib.rs`, lines 213-216). -/
def View.get (v : View) (idx : Nat) : BuildOutcome RowRef :=
  buildRow v.handles idx

/-- Models the generated `iter` (`lib.rs`, lines 218-220):
`(0..self.len()).map(|i| self.get(i))`, materialized as a list since each
call builds a fresh sequence from the immutable view. -/
def View.iter (v : View) : List (BuildOutcome RowRef) :=
  (List.range v.len).map (fun i => v.get i)

/-- The total per-field materialization function used to describe the
contents of a successfully built row; it agrees with `materializeField`
whenever the latter succeeds. -/
def fieldValueAt (h : FieldHandle) (idx : Nat) : FieldValue :=
  match h.kind with
  | RowBuildKind.optionalRead => FieldValue.optionalVal (cellAt h.cells idx)
  | RowBuildKind.withDefault d => FieldValue.required ((cellAt h.cells idx).getD d)
  | RowBuildKind.errorOnNull =>
    FieldValue.required ((cellAt h.cells idx).getD (Value.int 0))

/-- Decidable equality on `Except`, so concrete outcomes of the fallible
operations can be settled by evaluation. -/
instance {ε α : Type} [DecidableEq ε] [DecidableEq α] : DecidableEq (Except ε α) := fun a b =>
  match a, b with
  | Except.error x, Except.error y =>
    if h : x = y then isTrue (by rw [h])
    else isFalse (by intro hc; cases hc; exact h rfl)
  | Except.error _, Except.ok _ => isFalse (by intro hc; cases hc)
  | Except.ok _, Except.error _ => isFalse (by intro hc; cases hc)
  | Except.ok x, Except.ok y =>
    if h : x = y then isTrue (by rw [h])
    else isFalse (by intro hc; cases hc; exact h rfl)

/-! Helper lemmas shared by the claim theorems. -/

/-- An in-range cell read succeeds and yields the possibly-null cell
content. -/
theorem cellGet_in_range (cells : List (Option Value)) (idx : Nat)
    (hin : idx < cells.length) :
    cellGet cells idx = BuildOutcome.ok (cellAt cells idx) := by
  simp [cellGet, hin]

/-- An out-of-range cell read hits the polars bounds assert and panics. -/
theorem cellGet_oob (cells : List (Option Value)) (idx : Nat)
    (hout : cells.length ≤ idx) :
    cellGet cells idx = BuildOutcome.panicked "index out of bounds" := by
  simp [cellGet, Nat.not_lt.mpr hout]

/-- A successful cell read returns exactly the in-range cell content. -/
theorem cellGet_ok_inv (cells : List (Option Value)) (idx : Nat) (cell : Option Value)
    (h : cellGet cells idx = BuildOutcome.ok cell) : cellAt cells idx = cell := by
  unfold cellGet at h
  split at h
  · exact BuildOutcome.ok.inj h
  · cases h

/-- For an in-range index, when an error-policy field is not hit by a null,
`materializeField` succeeds and returns exactly the total description
`fieldValueAt`. -/
theorem materializeField_eq_ok (h : FieldHandle) (idx : Nat)
    (hin : idx < h.cells.length)
    (hg : h.kind = RowBuildKind.errorOnNull → cellAt h.cells idx ≠ none) :
    materializeField h idx = BuildOutcome.ok (fieldValueAt h idx) := by
  have hcg := cellGet_in_range h.cells idx hin
  cases hk : h.kind with
  | optionalRead => simp [materializeField, hcg, fieldValueAt, hk]
  | withDefault d => simp [materializeField, hcg, fieldValueAt, hk]
  | errorOnNull =>
    cases hc : cellAt h.cells idx with
    | some v => simp [materializeField, hcg, fieldValueAt, hk, hc]
    | none => exact absurd hc (hg hk)

/-- An out-of-range materialization panics on the cell read, whatever the
field's policy. -/
theorem materializeField_oob (h : FieldHandle) (idx : Nat)
    (hout : h.cells.length ≤ idx) :
    materializeField h idx = BuildOutcome.panicked "index out of bounds" := by
  simp [materializeField, cellGet_oob h.cells idx hout]

/-- A successful `materializeField` result is determined: it is
`fieldValueAt`. -/
theorem materializeField_ok_inv (h : FieldHandle) (idx : Nat) (fv : FieldValue)
    (hok : materializeField h idx = BuildOutcome.ok fv) : fv = fieldValueAt h idx := by
  unfold materializeField at hok
  cases hcg : cellGet h.cells idx with
  | panicked m => rw [hcg] at hok; cases hok
  | failed e => rw [hcg] at hok; cases hok
  | ok cell =>
    rw [hcg] at hok
    have hcell := cellGet_ok_inv h.cells idx cell hcg
    cases hk : h.kind with
    | optionalRead =>
      rw [hk] at hok
      injection hok with hok
      simp [fieldValueAt, hk, hcell, ← hok]
    | withDefault d =>
      rw [hk] at hok
      injection hok with hok
      simp [fieldValueAt, hk, hcell, ← hok]
    | errorOnNull =>
      rw [hk] at hok
      cases cell with
      | some v =>
        injection hok with hok
        simp [fieldValueAt, hk, hcell, ← hok]
      | none => cases hok

/-- When every index is in range and no error-policy field is hit by a
null, the whole row builds and is exactly the pointwise materialization of
every field, in order. -/
theorem buildRow_ok_all (handles : List FieldHandle) (idx : Nat)
    (hin : ∀ g ∈ handles, idx < g.cells.length)
    (hall : ∀ g ∈ handles, g.kind = RowBuildKind.errorOnNull → cellAt g.cells idx ≠ none) :
    buildRow handles idx
      = BuildOutcome.ok (handles.map (fun g => (g.ident, fieldValueAt g idx))) := by
  induction handles with
  | nil => rfl
  | cons g t ih =>
    have hg := materializeField_eq_ok g idx (hin g (by simp)) (hall g (by simp))
    have ht := ih (fun x hx => hin x (by simp [hx])) (fun x hx => hall x (by simp [hx]))
    simp [buildRow, hg, ht]

/-- Atomicity of row construction: a successfully built row is fully
populated — one entry per field, in declaration order, each holding its
pointwise materialized value. -/
theorem buildRow_ok_inv (handles : List FieldHandle) (idx : Nat) (r : RowRef)
    (hok : buildRow handles idx = BuildOutcome.ok r) :
    r = handles.map (fun g => (g.ident, fieldValueAt g idx)) := by
  induction handles generalizing r with
  | nil =>
    simp [buildRow] at hok
    simp [← hok]
  | cons g t ih =>
    unfold buildRow at hok
    cases hm : materializeField g idx with
    | failed e => rw [hm] at hok; cases hok
    | panicked m => rw [hm] at hok; cases hok
    | ok fv =>
      rw [hm] at hok
      cases hb : buildRow t idx with
      | failed e => rw [hb] at hok; cases hok
      | panicked m => rw [hb] at hok; cases hok
      | ok r2 =>
        rw [hb] at hok
        injection hok with hok
        subst hok
        have h1 := materializeField_ok_inv g idx fv hm
        have h2 := ih r2 hb
        simp [h1, h2]

/-- If every field before `g` reads in range and materializes, and `g`
fails with an error, the whole row build fails with exactly the error of
`g` (first-failure semantics). -/
theorem buildRow_err_first (pre : List FieldHandle) (g : FieldHandle)
    (post : List FieldHandle) (idx : Nat) (e : ColbackError)
    (hinpre : ∀ x ∈ pre, idx < x.cells.length)
    (hpre : ∀ x ∈ pre, x.kind = RowBuildKind.errorOnNull → cellAt x.cells idx ≠ none)
    (hg : materializeField g idx = BuildOutcome.failed e) :
    buildRow (pre ++ g :: post) idx = BuildOutcome.failed e := by
  induction pre with
  | nil => simp [buildRow, hg]
  | cons x t ih =>
    have hx := materializeField_eq_ok x idx (hinpre x (by simp)) (hpre x (by simp))
    have ht := ih (fun y hy => hinpre y (by simp [hy])) (fun y hy => hpre y (by simp [hy]))
    simp [buildRow, hx, ht]

/-- Indexing a mapped split list at the split point yields the image of the
split element. -/
theorem map_append_getElem {α : Type} (f : FieldHandle → α) (pre : List FieldHandle)
    (h : FieldHandle) (post : List FieldHandle) :
    ((pre ++ h :: post).map f)[pre.length]? = some (f h) := by
  induction pre with
  | nil => simp
  | cons x t ih => simpa using ih

/-- Column lookup failure makes field extraction fail with `MissingColumn`
naming exactly that column. -/
theorem extractField_missing (df : DataFrame) (cf : CompiledField)
    (hmiss : df.column cf.col_name = none) :
    extractField df cf = BuildOutcome.failed (ColbackError.MissingColumn cf.col_name) := by
  simp [extractField, hmiss]

/-- A dtype mismatch makes field extraction fail with `WrongDtype` carrying
the column's true dtype. -/
theorem extractField_wrongDtype (df : DataFrame) (cf : CompiledField) (col : Column)
    (hcol : df.column cf.col_name = some col) (hne : col.dtype ≠ cf.expected_dtype) :
    extractField df cf
      = BuildOutcome.failed (ColbackError.WrongDtype cf.col_name cf.expected_dtype col.dtype) := by
  simp [extractField, hcol, hne]

/-- If every field before `cf` extracts and `cf` fails, view construction
fails with exactly the error of `cf` (first-failure semantics). -/
theorem viewFields_err_first (pre : List CompiledField) (cf : CompiledField)
    (post : List CompiledField) (df : DataFrame) (e : ColbackError)
    (hpre : ∀ c ∈ pre, ∃ h, extractField df c = BuildOutcome.ok h)
    (hcf : extractField df cf = BuildOutcome.failed e) :
    viewFields df (pre ++ cf :: post) = BuildOutcome.failed e := by
  induction pre with
  | nil => simp [viewFields, hcf]
  | cons c t ih =>
    obtain ⟨h, hh⟩ := hpre c (by simp)
    have ht := ih (fun y hy => hpre y (by simp [hy]))
    simp [viewFields, hh, ht]

/-- When every field extracts, view construction succeeds with one handle
per field. -/
theorem viewFields_ok_all (cfs : List CompiledField) (df : DataFrame)
    (hall : ∀ c ∈ cfs, ∃ h, extractField df c = BuildOutcome.ok h) :
    ∃ hs, viewFields df cfs = BuildOutcome.ok hs ∧ hs.length = cfs.length := by
  induction cfs with
  | nil => exact ⟨[], rfl, rfl⟩
  | cons c t ih =>
    obtain ⟨h, hh⟩ := hall c (by simp)
    obtain ⟨hs, hhs, hlen⟩ := ih (fun y hy => hall y (by simp [hy]))
    exact ⟨h :: hs, by simp [viewFields, hh, hhs], by simp [hlen]⟩

/-- Every catalog entry pairs its accessor with its expected dtype: the
typed series accessor named by the catalog succeeds exactly on the dtype
the catalog expects. -/
theorem map_prim_accessor (s : String) (tm : TypeMap) (h : map_prim s = some tm) :
    accessorDtype tm.accessor = some tm.expected_dtype := by
  unfold map_prim at h
  split_ifs at h <;> simp only [Option.some.injEq] at h <;> subst h <;> decide

/-- Catalog lookup through `map_type` also pairs accessor and dtype. -/
theorem map_type_accessor (ty : RustTy) (tm : TypeMap) (h : map_type ty = some tm) :
    accessorDtype tm.accessor = some tm.expected_dtype := by
  cases ty with
  | path s => exact map_prim_accessor s tm h
  | option inner => cases h
  | other => cases h

/-- Every compiled field carries an accessor/dtype pair straight out of the
catalog, so the accessor's success dtype is the field's expected dtype. -/
theorem compileField_accessor (f : ColbackFieldOpts) (cf : CompiledField)
    (h : compileField f = Except.ok cf) :
    accessorDtype cf.accessor = some cf.expected_dtype := by
  simp only [compileField] at h
  cases hm : map_type (option_inner f.ty).2 with
  | none => rw [hm] at h; cases h
  | some m =>
    rw [hm] at h
    have hma := map_type_accessor _ m hm
    split_ifs at h
    all_goals try cases hd : f.default
    all_goals try rw [hd] at h
    all_goals try cases h
    all_goals exact hma

/-- Every compiled field of a successfully compiled schema comes from some
field declaration. -/
theorem compileSchema_mem (fs : List ColbackFieldOpts) (cfs : List CompiledField)
    (h : compileSchema fs = Except.ok cfs) :
    ∀ cf ∈ cfs, ∃ f, compileField f = Except.ok cf := by
  induction fs generalizing cfs with
  | nil =>
    simp [compileSchema] at h
    subst h
    simp
  | cons f t ih =>
    unfold compileSchema at h
    cases hf : compileField f with
    | error e => rw [hf] at h; cases h
    | ok cf0 =>
      rw [hf] at h
      cases ht : compileSchema t with
      | error e => rw [ht] at h; cases h
      | ok cfs2 =>
        rw [ht] at h
        injection h with h
        subst h
        intro cf hcf
        rcases List.mem_cons.mp hcf with hceq | hmem
        · exact ⟨f, hceq ▸ hf⟩
        · exact ih cfs2 ht cf hmem

/-- Once the dtype-equality check has passed, the typed accessor succeeds,
so extraction never reaches the panic branch of the generated `expect`. -/
theorem extractField_no_panic (df : DataFrame) (cf : CompiledField)
    (hacc : accessorDtype cf.accessor = some cf.expected_dtype) (m : String) :
    extractField df cf ≠ BuildOutcome.panicked m := by
  unfold extractField
  cases hcol : df.column cf.col_name with
  | none => simp
  | some col =>
    by_cases hdt : col.dtype = cf.expected_dtype
    · simp [hdt, hacc]
    · simp [hdt]

/-- View construction over fields whose accessors match their expected
dtypes never panics. -/
theorem viewFields_no_panic (df : DataFrame) (cfs : List CompiledField)
    (hall : ∀ cf ∈ cfs, accessorDtype cf.accessor = some cf.expected_dtype) :
    ∀ m, viewFields df cfs ≠ BuildOutcome.panicked m := by
  induction cfs with
  | nil => intro m; simp [viewFields]
  | cons c t ih =>
    intro m hcontra
    unfold viewFields at hcontra
    cases he : extractField df c with
    | failed e => rw [he] at hcontra; cases hcontra
    | panicked pm => exact extractField_no_panic df c (hall c (by simp)) pm he
    | ok h =>
      rw [he] at hcontra
      cases ht : viewFields df t with
      | failed e => rw [ht] at hcontra; cases hcontra
      | panicked pm =>
        exact ih (fun y hy => hall y (by simp [hy])) pm ht
      | ok hs => rw [ht] at hcontra; cases hcontra

/-! Concrete sample data shared by the witness theorems: a three-field view
(optional, default and error policies) over a two-row dataframe, and an
empty view. -/

/-- Sample error-policy handle over column a with a null in row 0. -/
def hErrS : FieldHandle := ⟨"a", "a", [none, some (Value.int 3)], RowBuildKind.errorOnNull⟩

/-- Sample optional-policy handle over column b with a null in row 0. -/
def hOptS : FieldHandle := ⟨"b", "b", [none, some (Value.int 7)], RowBuildKind.optionalRead⟩

/-- Sample default-policy handle over column c, default 1, null in row 0. -/
def hDefS : FieldHandle := ⟨"c", "c", [none, some (Value.int 5)], RowBuildKind.withDefault (Value.int 1)⟩

/-- Sample two-row dataframe backing the sample handles. -/
def dfS : DataFrame :=
  ⟨2, [("a", ⟨DataType.UInt32, [none, some (Value.int 3)]⟩),
       ("b", ⟨DataType.UInt16, [none, some (Value.int 7)]⟩),
       ("c", ⟨DataType.UInt32, [none, some (Value.int 5)]⟩)]⟩

/-- Sample view with fields in order optional, default, error. -/
def vS : View := ⟨dfS, [hOptS, hDefS, hErrS]⟩

/-- Sample empty view over a zero-height dataframe. -/
def vEmptyS : View := ⟨⟨0, []⟩, []⟩

/-- The row vS.get 1 produces. -/
def rS1 : RowRef :=
  [("b", FieldValue.optionalVal (some (Value.int 7))),
   ("c", FieldValue.required (Value.int 5)),
   ("a", FieldValue.required (Value.int 3))]

/-! Claim theorems. -/

/-- C1: for an in-range row index i under the table contract of uniform
column heights, a field with null policy Error whose cell at i is null —
the first failing one, per the propagation policy of the spec — makes
get(i) return exactly InvalidNull with the field's source column and index
i; any in-range row j whose Error-policy cells are all non-null still
builds fully; and construction is atomic: a successful get returns the
fully populated row, one entry per field in declaration order. -/
theorem get_invalidNull_error_policy (v : View) (i : Nat)
    (huniform : ∀ g ∈ v.handles, g.cells.length = v.df.height)
    (hin : i < v.len) :
    (∀ pre h post, v.handles = pre ++ h :: post →
        h.kind = RowBuildKind.errorOnNull → cellAt h.cells i = none →
        (∀ g ∈ pre, g.kind = RowBuildKind.errorOnNull → cellAt g.cells i ≠ none) →
        v.get i = BuildOutcome.failed (ColbackError.InvalidNull h.col_name i))
    ∧ (∀ j, j < v.len →
        (∀ g ∈ v.handles, g.kind = RowBuildKind.errorOnNull → cellAt g.cells j ≠ none) →
        v.get j = BuildOutcome.ok (v.handles.map (fun g => (g.ident, fieldValueAt g j))))
    ∧ (∀ r, v.get i = BuildOutcome.ok r →
        r = v.handles.map (fun g => (g.ident, fieldValueAt g i))) := by
  refine ⟨?_, ?_, ?_⟩
  · intro pre h post hsplit hk hc hpre
    have hmemh : h ∈ v.handles := by rw [hsplit]; simp
    have hinh : i < h.cells.length := by rw [huniform h hmemh]; exact hin
    have hg : materializeField h i
        = BuildOutcome.failed (ColbackError.InvalidNull h.col_name i) := by
      simp [materializeField, cellGet_in_range h.cells i hinh, hk, hc]
    have hinpre : ∀ x ∈ pre, i < x.cells.length := by
      intro x hx
      have hxmem : x ∈ v.handles := by
        rw [hsplit]
        exact List.mem_append_left _ hx
      rw [huniform x hxmem]
      exact hin
    unfold View.get
    rw [hsplit]
    exact buildRow_err_first pre h post i _ hinpre hpre hg
  · intro j hj hall
    exact buildRow_ok_all v.handles j (fun g hg => by rw [huniform g hg]; exact hj) hall
  · intro r hr
    exact buildRow_ok_inv v.handles i r hr

/-- Witness for C1 at the concrete sample view: the null in the
error-policy column fails row 0 with InvalidNull a 0, while row 1 builds
fully. -/
theorem get_invalidNull_error_policy_witness :
    View.get vS 0 = BuildOutcome.failed (ColbackError.InvalidNull "a" 0)
    ∧ View.get vS 1 = BuildOutcome.ok rS1 := by
  constructor
  · exact (get_invalidNull_error_policy vS 0 (by decide) (by decide)).1
      [hOptS, hDefS] hErrS [] rfl rfl rfl (by decide)
  · exact ((get_invalidNull_error_policy vS 0 (by decide) (by decide)).2.1 1
      (by decide) (by decide)).trans (by decide)

/-- C6: for an in-range index, an AsOptional field's materialization
always succeeds, yielding exactly the optional cell value — none where the
cell is null, some v where it holds v — and in any successfully built row
the field's entry is exactly that value. -/
theorem get_optional_policy (v : View) (i : Nat) (pre post : List FieldHandle)
    (h : FieldHandle) (hsplit : v.handles = pre ++ h :: post)
    (hk : h.kind = RowBuildKind.optionalRead) (hin : i < h.cells.length) :
    materializeField h i = BuildOutcome.ok (FieldValue.optionalVal (cellAt h.cells i))
    ∧ (∀ r, v.get i = BuildOutcome.ok r →
        r[pre.length]? = some (h.ident, FieldValue.optionalVal (cellAt h.cells i))) := by
  constructor
  · simp [materializeField, cellGet_in_range h.cells i hin, hk]
  · intro r hr
    have h2 := buildRow_ok_inv v.handles i r hr
    subst h2
    rw [hsplit, map_append_getElem]
    simp [fieldValueAt, hk]

/-- Witness for C6 at the concrete sample view: the optional field reads
Some 7 in row 1 and appears as such in the built row. -/
theorem get_optional_policy_witness :
    materializeField hOptS 1 = BuildOutcome.ok (FieldValue.optionalVal (some (Value.int 7)))
    ∧ rS1[0]? = some ("b", FieldValue.optionalVal (some (Value.int 7))) := by
  have h := get_optional_policy vS 1 [] [hDefS, hErrS] hOptS rfl rfl (by decide)
  exact ⟨h.1.trans (by decide), (h.2 rS1 (by decide)).trans (by decide)⟩

/-- C7: for an in-range index, a Default-policy field with default d
materializes to d exactly where the cell is null and to the true cell
value otherwise, never failing; in any successfully built row the field's
entry is exactly that substituted value. -/
theorem get_default_policy (v : View) (i : Nat) (pre post : List FieldHandle)
    (h : FieldHandle) (d : Value) (hsplit : v.handles = pre ++ h :: post)
    (hk : h.kind = RowBuildKind.withDefault d) (hin : i < h.cells.length) :
    (cellAt h.cells i = none →
        materializeField h i = BuildOutcome.ok (FieldValue.required d))
    ∧ (∀ w, cellAt h.cells i = some w →
        materializeField h i = BuildOutcome.ok (FieldValue.required w))
    ∧ (∀ r, v.get i = BuildOutcome.ok r →
        r[pre.length]? = some (h.ident, FieldValue.required ((cellAt h.cells i).getD d))) := by
  refine ⟨?_, ?_, ?_⟩
  · intro hc
    simp [materializeField, cellGet_in_range h.cells i hin, hk, hc]
  · intro w hc
    simp [materializeField, cellGet_in_range h.cells i hin, hk, hc]
  · intro r hr
    have h2 := buildRow_ok_inv v.handles i r hr
    subst h2
    rw [hsplit, map_append_getElem]
    simp [fieldValueAt, hk]

/-- Witness for C7 at the concrete sample view: the default-policy field
yields its default 1 on the null row 0 and the true value 5 on row 1. -/
theorem get_default_policy_witness :
    materializeField hDefS 0 = BuildOutcome.ok (FieldValue.required (Value.int 1))
    ∧ materializeField hDefS 1 = BuildOutcome.ok (FieldValue.required (Value.int 5))
    ∧ rS1[1]? = some ("c", FieldValue.required (Value.int 5)) := by
  have h0 := get_default_policy vS 0 [hOptS] [hErrS] hDefS (Value.int 1) rfl rfl (by decide)
  have h1 := get_default_policy vS 1 [hOptS] [hErrS] hDefS (Value.int 1) rfl rfl (by decide)
  exact ⟨h0.1 (by decide), h1.2.1 (Value.int 5) (by decide),
    (h1.2.2 rS1 (by decide)).trans (by decide)⟩

/-- C8: iter enumerates exactly get(0) .. get(len-1) in ascending index
order — it has length len, its k-th element is get(k), and it is empty for
a zero-height table.  Every call recomputes the sequence from the immutable
view, so separate calls coincide and consuming one cannot affect another. -/
theorem iter_spec (v : View) :
    v.iter.length = v.len
    ∧ (∀ k, k < v.len → v.iter[k]? = some (v.get k))
    ∧ (v.len = 0 → v.iter = []) := by
  refine ⟨by simp [View.iter], ?_, ?_⟩
  · intro k hk
    simp [View.iter, List.getElem?_range hk]
  · intro h0
    simp [View.iter, h0]

/-- C2: view construction processes fields in schema order and stops at
the first failing field — an absent column fails with MissingColumn naming
exactly that column, a present column of the wrong storage dtype fails
with WrongDtype carrying the expected dtype and the column's true dtype,
and no view is returned in either case; when every field checks out, a
view is returned whose len equals the dataframe's height, with one handle
per field. -/
theorem view_build_first_failure (cfs : List CompiledField) (df : DataFrame) :
    (∀ pre cf post, cfs = pre ++ cf :: post →
        (∀ c ∈ pre, ∃ h, extractField df c = BuildOutcome.ok h) →
        (df.column cf.col_name = none →
            view cfs df = BuildOutcome.failed (ColbackError.MissingColumn cf.col_name))
        ∧ (∀ col, df.column cf.col_name = some col → col.dtype ≠ cf.expected_dtype →
            view cfs df = BuildOutcome.failed
              (ColbackError.WrongDtype cf.col_name cf.expected_dtype col.dtype)))
    ∧ ((∀ c ∈ cfs, ∃ h, extractField df c = BuildOutcome.ok h) →
        ∃ v, view cfs df = BuildOutcome.ok v ∧ v.len = df.height
          ∧ v.handles.length = cfs.length) := by
  constructor
  · intro pre cf post hsplit hpre
    constructor
    · intro hmiss
      have he := extractField_missing df cf hmiss
      unfold view
      rw [hsplit, viewFields_err_first pre cf post df _ hpre he]
    · intro col hcol hne
      have he := extractField_wrongDtype df cf col hcol hne
      unfold view
      rw [hsplit, viewFields_err_first pre cf post df _ hpre he]
  · intro hall
    obtain ⟨hs, hhs, hlen⟩ := viewFields_ok_all cfs df hall
    refine ⟨⟨df, hs⟩, ?_, rfl, hlen⟩
    unfold view
    rw [hhs]

/-- Sample compiled field row_a of type u32, error policy. -/
def cfA : CompiledField :=
  ⟨"row_a", "row_a", DataType.UInt32, "u32", "UInt32Chunked", RowBuildKind.errorOnNull⟩

/-- Sample compiled field row_b of type bool, error policy. -/
def cfB : CompiledField :=
  ⟨"row_b", "row_b", DataType.Boolean, "bool", "BooleanChunked", RowBuildKind.errorOnNull⟩

/-- Sample dataframe matching cfA and cfB (the round-trip scenario of the
spec). -/
def dfAB : DataFrame :=
  ⟨2, [("row_a", ⟨DataType.UInt32, [some (Value.int 0), some (Value.int 1)]⟩),
       ("row_b", ⟨DataType.Boolean, [some (Value.bool true), some (Value.bool false)]⟩)]⟩

/-- Sample dataframe missing column row_b. -/
def dfMissB : DataFrame :=
  ⟨2, [("row_a", ⟨DataType.UInt32, [some (Value.int 0), some (Value.int 1)]⟩)]⟩

/-- Sample dataframe where row_b has storage dtype UInt32 instead of
Boolean. -/
def dfWrongB : DataFrame :=
  ⟨2, [("row_a", ⟨DataType.UInt32, [some (Value.int 0), some (Value.int 1)]⟩),
       ("row_b", ⟨DataType.UInt32, [some (Value.int 9), some (Value.int 8)]⟩)]⟩

/-- Witness for C2 at concrete schemas and dataframes: a missing column
fails construction with MissingColumn row_b, a mistyped column fails with
WrongDtype carrying the true dtype, and the well-typed dataframe yields a
view of length 2. -/
theorem view_build_first_failure_witness :
    view [cfA, cfB] dfMissB = BuildOutcome.failed (ColbackError.MissingColumn "row_b")
    ∧ view [cfA, cfB] dfWrongB
        = BuildOutcome.failed
            (ColbackError.WrongDtype "row_b" DataType.Boolean DataType.UInt32)
    ∧ (∃ v, view [cfA, cfB] dfAB = BuildOutcome.ok v ∧ v.len = dfAB.height) := by
  have hpre1 : ∀ c ∈ [cfA], ∃ h, extractField dfMissB c = BuildOutcome.ok h := by
    intro c hc
    rcases List.mem_cons.mp hc with rfl | hc2
    · exact ⟨_, rfl⟩
    · cases hc2
  have hpre2 : ∀ c ∈ [cfA], ∃ h, extractField dfWrongB c = BuildOutcome.ok h := by
    intro c hc
    rcases List.mem_cons.mp hc with rfl | hc2
    · exact ⟨_, rfl⟩
    · cases hc2
  have hall : ∀ c ∈ [cfA, cfB], ∃ h, extractField dfAB c = BuildOutcome.ok h := by
    intro c hc
    rcases List.mem_cons.mp hc with rfl | hc2
    · exact ⟨_, rfl⟩
    · rcases List.mem_cons.mp hc2 with rfl | hc3
      · exact ⟨_, rfl⟩
      · cases hc3
  refine ⟨?_, ?_, ?_⟩
  · exact ((view_build_first_failure [cfA, cfB] dfMissB).1 [cfA] cfB [] rfl hpre1).1
      (by decide)
  · exact ((view_build_first_failure [cfA, cfB] dfWrongB).1 [cfA] cfB [] rfl hpre2).2
      ⟨DataType.UInt32, [some (Value.int 9), some (Value.int 8)]⟩ (by decide) (by decide)
  · obtain ⟨v, hv, hlen, _⟩ := (view_build_first_failure [cfA, cfB] dfAB).2 hall
    exact ⟨v, hv, hlen⟩

/-- C3: the type catalog's u64 entry names the chunked-array type
UInt63Chunked, which does not exist in polars (UInt64Chunked is the
intended type), so the mapping the lookup yields for u64 is not usable —
a schema with a u64 field derives code that cannot compile; the signed
8- and 16-bit integers are absent from the catalog entirely; and a
primitive outside the catalog is rejected at definition time. -/
theorem u64_catalog_chunked_typo :
    map_type (RustTy.path "u64")
      = some ⟨DataType.UInt64, "u64", "UInt63Chunked", "u64"⟩
    ∧ "UInt63Chunked" ≠ "UInt64Chunked"
    ∧ map_type (RustTy.path "i8") = none
    ∧ map_type (RustTy.path "i16") = none
    ∧ compileField ⟨"x", RustTy.path "i8", none, none, none⟩
        = Except.error "unsupported field type for ColbackView; add a mapping for this type" := by
  decide

/-- C4: a non-Optional field with policy option and an Optional field with
policy error are definition-time errors as claimed, but an Optional field
with policy default plus a default expression is accepted — compiled to a
plain optional read with the default silently ignored — contradicting the
claim and the macro's own documentation that option is the only allowed
policy for Optional fields. -/
theorem option_field_default_policy_accepted :
    compileField ⟨"x", RustTy.path "u32", none, some "option", none⟩
      = Except.error "null=option requires the field type to be Option<T>"
    ∧ compileField ⟨"x", RustTy.option (RustTy.path "u32"), none, some "error", none⟩
      = Except.error "Option<T> fields must use null=option"
    ∧ compileField ⟨"x", RustTy.option (RustTy.path "u32"), none, some "default",
          some (Value.int 0)⟩
      = Except.ok ⟨"x", "x", DataType.UInt32, "u32", "UInt32Chunked",
          RowBuildKind.optionalRead⟩ := by
  decide

/-- C5: policy default without a default expression is a definition-time
error as claimed, but the converse is not enforced: a default expression
supplied under policy error (explicit or implicit) is accepted and the
default silently ignored — contradicting the claim and the macro's own
documentation of the default option. -/
theorem default_value_without_default_policy_accepted :
    compileField ⟨"x", RustTy.path "u32", none, some "default", none⟩
      = Except.error "null=default requires a default to be set"
    ∧ compileField ⟨"x", RustTy.path "u32", none, some "error", some (Value.int 5)⟩
      = Except.ok ⟨"x", "x", DataType.UInt32, "u32", "UInt32Chunked",
          RowBuildKind.errorOnNull⟩
    ∧ compileField ⟨"x", RustTy.path "u32", none, none, some (Value.int 5)⟩
      = Except.ok ⟨"x", "x", DataType.UInt32, "u32", "UInt32Chunked",
          RowBuildKind.errorOnNull⟩ := by
  decide

/-- Sample single-field default-policy view over a one-row dataframe. -/
def vDefOnly : View :=
  ⟨⟨1, [("c", ⟨DataType.UInt32, [some (Value.int 7)]⟩)]⟩,
   [⟨"c", "c", [some (Value.int 7)], RowBuildKind.withDefault (Value.int 1)⟩]⟩

/-- Sample single-field error-policy view over a one-row dataframe. -/
def vErrOnly : View :=
  ⟨⟨1, [("a", ⟨DataType.UInt32, [some (Value.int 3)]⟩)]⟩,
   [⟨"a", "a", [some (Value.int 3)], RowBuildKind.errorOnNull⟩]⟩

/-- C9: under the table contract that every bound column has exactly the
dataframe's height, an out-of-range get never silently returns an Ok
RowRef containing fabricated field values: on any view with at least one
field, the first field's cell read hits the polars bounds assert and
panics — loudly signalling the violation, whatever the field's policy —
and the only views whose get can return Ok out of range are zero-field
views, whose RowRef contains no field values at all. -/
theorem get_out_of_range_signals (v : View) (idx : Nat)
    (huniform : ∀ h ∈ v.handles, h.cells.length = v.df.height)
    (hidx : v.len ≤ idx) :
    (∀ r, v.get idx = BuildOutcome.ok r → r = [])
    ∧ (v.handles ≠ [] → v.get idx = BuildOutcome.panicked "index out of bounds") := by
  cases hh : v.handles with
  | nil =>
    constructor
    · intro r hr
      unfold View.get at hr
      rw [hh] at hr
      unfold buildRow at hr
      injection hr with hr
      exact hr.symm
    · intro hne
      exact absurd rfl hne
  | cons g t =>
    have hg : materializeField g idx = BuildOutcome.panicked "index out of bounds" :=
      materializeField_oob g idx
        (by rw [huniform g (by rw [hh]; simp)]; exact hidx)
    constructor
    · intro r hr
      unfold View.get at hr
      rw [hh] at hr
      simp [buildRow, hg] at hr
    · intro _
      unfold View.get
      rw [hh]
      simp [buildRow, hg]

/-- Witness for C9 at concrete one-row views: get at the out-of-range
index 5 panics on the bounds assert for both the error-policy and the
default-policy view, rather than returning a fabricated Ok. -/
theorem get_out_of_range_signals_witness :
    View.get vDefOnly 5 = BuildOutcome.panicked "index out of bounds"
    ∧ View.get vErrOnly 5 = BuildOutcome.panicked "index out of bounds" := by
  constructor
  · exact (get_out_of_range_signals vDefOnly 5 (by decide) (by decide)).2 (by decide)
  · exact (get_out_of_range_signals vErrOnly 5 (by decide) (by decide)).2 (by decide)

/-- C10: over any schema the derive pass accepts, generated view
construction never reaches the panic hidden in the expect call after the
dtype check: for every dataframe the outcome is an ordinary Ok or Err,
never a panic. -/
theorem view_no_panic (fs : List ColbackFieldOpts) (cfs : List CompiledField)
    (df : DataFrame) (m : String) (hc : compileSchema fs = Except.ok cfs) :
    view cfs df ≠ BuildOutcome.panicked m := by
  intro hcontra
  have hall : ∀ cf ∈ cfs, accessorDtype cf.accessor = some cf.expected_dtype := by
    intro cf hcf
    obtain ⟨f, hf⟩ := compileSchema_mem fs cfs hc cf hcf
    exact compileField_accessor f cf hf
  have hnp := viewFields_no_panic df cfs hall m
  unfold view at hcontra
  cases hv : viewFields df cfs with
  | ok hs => rw [hv] at hcontra; cases hcontra
  | failed e => rw [hv] at hcontra; cases hcontra
  | panicked pm =>
    rw [hv] at hcontra
    injection hcontra with hpm
    exact hnp (by rw [hv, hpm])

/-- Witness for C10: a one-field u32 schema compiles, and its view
construction on the sample dataframe does not panic. -/
theorem view_no_panic_witness :
    compileSchema [⟨"row_a", RustTy.path "u32", none, none, none⟩]
      = Except.ok [⟨"row_a", "row_a", DataType.UInt32, "u32", "UInt32Chunked",
          RowBuildKind.errorOnNull⟩]
    ∧ view [⟨"row_a", "row_a", DataType.UInt32, "u32", "UInt32Chunked",
          RowBuildKind.errorOnNull⟩] dfS
        ≠ BuildOutcome.panicked "dtype checked above" := by
  exact ⟨by decide, view_no_panic [⟨"row_a", RustTy.path "u32", none, none, none⟩] _ dfS
    "dtype checked above" (by decide)⟩

/-- Witness for C8 at the concrete sample views: the two-row view's
sequence has length 2 with get 1 in position 1, and the empty view's
sequence is empty. -/
theorem iter_spec_witness :
    (View.iter vS).length = 2
    ∧ (View.iter vS)[1]? = some (View.get vS 1)
    ∧ View.iter vEmptyS = [] := by
  refine ⟨(iter_spec vS).1.trans (by decide), ?_, (iter_spec vEmptyS).2.2 (by decide)⟩
  exact (iter_spec vS).2.1 1 (by decide)

end Colback
